import Mathlib

/-!
Verification of the go-api client (Cacophony API client).

The Go sources are embedded shallowly:

* Pure helpers (`isHTTPSuccess`, `isHTTPClientError`, `handleHTTPResponse`,
  `tokenResponse.message`, URL construction) become Lean functions.
* Stateful code becomes explicit state passing: the session state
  (`CacophonyClient`) is threaded through `register` / `authenticate` /
  `NewAPI`, and the filesystem is a value of type `FS` threaded through the
  credential-store operations and `DownloadFile`.
* Environmental effects (the network, lock acquisition against other
  processes) are parameters: a network oracle `String → PostResult` mapping
  a URL to the outcome of the HTTP call, and a lock-acquisition outcome
  `Bool × Option String` mirroring the `(locked, err)` pair returned by the
  flock library.
* External serializers (yaml, encoding/json) and the flock library are out
  of scope per the spec (§1 non-goals); they are modelled abstractly, see
  the doc comments on `FileData` and `Flock`.
* Fallible Go functions returning `error` are modelled with `Option`
  (the error slot) paired with the results, matching Go's multi-value
  returns; `nil` error is `none`.
-/

namespace GoAPI

/-! ### HTTP helpers (client file) -/

/-- Go: `const basePath = "/api/v1"`. -/
def basePath : String := "/api/v1"

/-- Go: `isHTTPSuccess(code) = code >= 200 && code < 300`.
HTTP status codes are small non-negative ints, modelled as `Nat`. -/
def isHTTPSuccess (code : Nat) : Bool :=
  200 ≤ code && code < 300

/-- Go: `isHTTPClientError(code) = code >= 400 && code < 500`. -/
def isHTTPClientError (code : Nat) : Bool :=
  400 ≤ code && code < 500

/-- An HTTP response as the client observes it: the status code, the bytes
obtained by `ioutil.ReadAll(resp.Body)` (a `String`), and the error, if any,
that `ReadAll` reported (`none` = the body was read successfully). -/
structure HTTPResponse where
  statusCode : Nat
  body : String
  readErr : Option String := none
deriving DecidableEq, Repr

/-- The repository's typed API error (constructed in `handleHTTPResponse` as
`&Error{message: ..., permanent: ...}`); its two fields are exactly the ones
the client file sets. -/
structure APIError where
  message : String
  permanent : Bool
deriving DecidableEq, Repr

/-- Modelled from the spec: `temporaryError` (defined in a repository file
not present under src/) wraps an error as a *temporary* API error, i.e. one
whose `permanent` flag is false ("5xx or network-transport error — safe to
retry with backoff"). -/
def temporaryError (msg : String) : APIError :=
  { message := msg, permanent := false }

/-- A Go `error` value as produced by this client: either a plain
`errors.New` / `fmt.Errorf` string, or the typed `*Error` above. -/
inductive GoError where
  | str (s : String)
  | api (e : APIError)
deriving DecidableEq, Repr

/-- Go `handleHTTPResponse`: on a non-2xx status, read the body; if the body
read itself failed, return a temporary error; otherwise return a typed
`Error` whose message embeds the status code and the body, permanent exactly
when `isHTTPClientError` holds. On 2xx, return `nil` (here `none`). -/
def handleHTTPResponse (resp : HTTPResponse) : Option APIError :=
  if isHTTPSuccess resp.statusCode then
    none
  else
    match resp.readErr with
    | some e =>
        some (temporaryError
          ("request failed (" ++ toString resp.statusCode ++ ") and body read failed: " ++ e))
    | none =>
        some { message := "HTTP request failed (" ++ toString resp.statusCode ++ "): " ++ resp.body
               permanent := isHTTPClientError resp.statusCode }

/-- Go `tokenResponse`: the JSON body decoded from register/authenticate
responses. -/
structure tokenResponse where
  Success : Bool
  Messages : List String
  Token : String
deriving DecidableEq, Repr

/-- Go `(*tokenResponse).message()`: the first server message, or
`"unknown"` when the list is empty. -/
def tokenResponse.message (r : tokenResponse) : String :=
  if r.Messages.length > 0 then r.Messages.headI else "unknown"

/-! ### Session manager (client file) -/

/-- The outcome of a `POST` call as the code consumes it: a transport-level
error, or a response together with the result of JSON-decoding its body into
a `tokenResponse` (the decoder `encoding/json` is external; its verdict on
the body is carried in the outcome). -/
inductive PostResult where
  | netErr (e : String)
  | ok (resp : HTTPResponse) (decoded : Except String tokenResponse)

/-- Go `CacophonyClient`: the session state. -/
structure CacophonyClient where
  group : String
  name : String
  password : String
  token : String
  justRegistered : Bool
deriving DecidableEq, Repr

/-- Go `CacophonyAPI`. The `http.Client` handle is not part of the model;
the network is passed to each operation as an oracle instead. -/
structure CacophonyAPI where
  Client : CacophonyClient
  serverURL : String
  regURL : String
  authURL : String
deriving DecidableEq, Repr

/-- Go `(*CacophonyAPI).authenticate`: POSTs `{devicename, password}` to the
authentication URL and stores the returned token. Returns the error slot,
the session state after the call, and the list of URLs actually POSTed (used
to reason about which HTTP calls a code path performs). -/
def authenticate (client : CacophonyClient) (authURL : String)
    (net : String → PostResult) : Option GoError × CacophonyClient × List String :=
  if client.password = "" then
    (some (.str "no password set"), client, [])
  else
    match net authURL with
    | .netErr e => (some (.str e), client, [authURL])
    | .ok resp decoded =>
      match handleHTTPResponse resp with
      | some e => (some (.api e), client, [authURL])
      | none =>
        match decoded with
        | .error e => (some (.str ("decode: " ++ e)), client, [authURL])
        | .ok r =>
          if !r.Success then
            (some (.str ("failed getting new token: " ++ r.message)), client, [authURL])
          else
            (none, { client with token := r.Token }, [authURL])

/-- Go `(*CacophonyAPI).register`: generates a password (`randString(20)`,
an external randomness source modelled by the `genPassword` argument), POSTs
`{group, devicename, password}` to the registration URL, and on success
stores the generated password, the token, and sets `justRegistered`. -/
def register (client : CacophonyClient) (regURL genPassword : String)
    (net : String → PostResult) : Option GoError × CacophonyClient × List String :=
  if client.password ≠ "" then
    (some (.str "already registered"), client, [])
  else
    match net regURL with
    | .netErr e => (some (.str e), client, [regURL])
    | .ok resp decoded =>
      match handleHTTPResponse resp with
      | some e => (some (.api e), client, [regURL])
      | none =>
        match decoded with
        | .error e => (some (.str ("decode: " ++ e)), client, [regURL])
        | .ok r =>
          if !r.Success then
            (some (.str ("registration failed: " ++ r.message)), client, [regURL])
          else
            (none, { client with password := genPassword
                                 token := r.Token
                                 justRegistered := true }, [regURL])

/-- Go `NewAPI`: rejects an empty device name before building any state,
otherwise constructs the client and API and runs exactly one of
`register` (empty password) or `authenticate` (non-empty password).
Returns the Go result (`api, err`), the final session state when one was
constructed (`none` when the device name was empty, so no client existed),
and the list of URLs POSTed during the call. -/
def NewAPI (serverURL group deviceName password genPassword : String)
    (net : String → PostResult) :
    Except GoError CacophonyAPI × Option CacophonyClient × List String :=
  if deviceName = "" then
    (.error (.str "no device name"), none, [])
  else
    let client : CacophonyClient :=
      { group := group, name := deviceName, password := password
        token := "", justRegistered := false }
    let api : CacophonyAPI :=
      { serverURL := serverURL, Client := client
        regURL := serverURL ++ basePath ++ "/devices"
        authURL := serverURL ++ "/authenticate_device" }
    if client.password = "" then
      match register client api.regURL genPassword net with
      | (some e, st, calls) => (.error e, some st, calls)
      | (none, st, calls) => (.ok { api with Client := st }, some st, calls)
    else
      match authenticate client api.authURL net with
      | (some e, st, calls) => (.error e, some st, calls)
      | (none, st, calls) => (.ok { api with Client := st }, some st, calls)

/-! ### Credential store (config file) -/

/-- Go: `RegisteredConfigPath = "/etc/cacophony/device-priv.yaml"`. -/
def RegisteredConfigPath : String := "/etc/cacophony/device-priv.yaml"

/-- Go: `lockfile = "/var/lock/go-api-priv.lock"`. -/
def lockfile : String := "/var/lock/go-api-priv.lock"

/-- Go `PrivateConfig`: the persisted private credential. -/
structure PrivateConfig where
  Password : String
  DeviceID : Int
deriving DecidableEq, Repr

/-- Go `(*PrivateConfig).IsValid`. -/
def PrivateConfig.IsValid (conf : PrivateConfig) : Bool :=
  conf.Password ≠ "" && conf.DeviceID ≠ 0

/-! ### Filesystem and YAML model (config file; afero/yaml are external) -/

/-- The content of a file. External serializers are out of scope (spec §1
non-goals), so yaml output is modelled abstractly: `priv c` is the (unique)
marshalled form of the credential `c`, and `bytes s` is any other byte
content — downloaded data, or content that does not deserialize as a
credential. -/
inductive FileData where
  | priv (c : PrivateConfig)
  | bytes (s : String)
deriving DecidableEq, Repr

/-- Go `yaml.Marshal` applied to a `PrivateConfig` (cannot fail on this
struct): produces its marshalled form. -/
def yamlMarshalPriv (c : PrivateConfig) : FileData :=
  .priv c

/-- Go `yaml.Unmarshal` of file content into a `PrivateConfig`: succeeds
exactly on marshalled credentials, fails with a decode error on other
content. -/
def yamlUnmarshalPriv : FileData → Except String PrivateConfig
  | .priv c => .ok c
  | .bytes _ => .error "yaml: cannot unmarshal into PrivateConfig"

/-- The observable outcome of reading a path: the file is absent
(`os.IsNotExist`), the read failed for another reason, or it yielded
content. -/
inductive ReadResult where
  | absent
  | readErr (e : String)
  | content (d : FileData)
deriving DecidableEq, Repr

/-- The filesystem (Go's `afero.Fs` / `os`), as a map from path to read
outcome. -/
def FS := String → ReadResult

/-- Write `d` at `path` (Go `afero.WriteFile` / what `os.Create` + `io.Copy`
leave behind). -/
def fsWrite (fs : FS) (path : String) (d : FileData) : FS :=
  fun p => if p = path then .content d else fs p

/-! ### Lock-safe config (config file; gofrs/flock is external) -/

/-- The state of a `flock.Flock` handle as this code observes it: whether
this handle holds the exclusive lock (`(*Flock).Locked()`) and whether it
holds the shared lock (`(*Flock).RLocked()`). Whether an acquisition attempt
succeeds depends on other processes and is an environmental input to the
operations below, as the `(locked, err)` pair the flock calls return. -/
structure Flock where
  locked : Bool
  rlocked : Bool
deriving DecidableEq, Repr

/-- flock `(*Flock).Locked()`. -/
def Flock.Locked (l : Flock) : Bool := l.locked

/-- Go `LockSafeConfig`. -/
structure LockSafeConfig where
  fileLock : Flock
  filename : String
  config : Option PrivateConfig
deriving DecidableEq, Repr

/-- Go `NewLockSafeConfig`: fresh handle on the fixed lock file, holding no
lock. -/
def NewLockSafeConfig (filename : String) : LockSafeConfig :=
  { fileLock := { locked := false, rlocked := false }
    filename := filename, config := none }

/-- Go `(*LockSafeConfig).Unlock`: releases whatever lock the handle holds. -/
def LockSafeConfig.Unlock (h : LockSafeConfig) : LockSafeConfig :=
  { h with fileLock := { locked := false, rlocked := false } }

/-- Go `(*LockSafeConfig).GetExLock`: bounded-wait exclusive acquisition via
`TryLockContext`. The `(locked, err)` outcome is environmental; on a
successful acquisition the handle holds the exclusive lock. -/
def LockSafeConfig.GetExLock (h : LockSafeConfig) (outcome : Bool × Option String) :
    LockSafeConfig × Bool × Option String :=
  (if outcome.1 then { h with fileLock := { h.fileLock with locked := true } } else h,
   outcome)

/-- Go `(*LockSafeConfig).Read`: if the handle does not already hold the
exclusive lock, try a bounded-wait shared lock (`getReadLock`, whose
`(locked, err)` outcome is the `rlockOutcome` argument) and return
`(nil, err)` when it was not acquired; then read the credential file —
absent file yields `(nil, nil)`, a read error or a yaml decode error is
returned, and otherwise the decoded credential. A lock acquired here is
released before returning (the handle is unchanged). Result is the Go pair
`(*PrivateConfig, error)`. -/
def LockSafeConfig.Read (h : LockSafeConfig) (rlockOutcome : Bool × Option String)
    (fs : FS) : Option PrivateConfig × Option String :=
  let readFile : Option PrivateConfig × Option String :=
    match fs h.filename with
    | .absent => (none, none)
    | .readErr e => (none, some e)
    | .content d =>
      match yamlUnmarshalPriv d with
      | .error e => (none, some e)
      | .ok c => (some c, none)
  if h.fileLock.Locked = false then
    if rlockOutcome.1 = false || rlockOutcome.2.isSome then
      (none, rlockOutcome.2)
    else
      readFile
  else
    readFile

/-- Go `(*LockSafeConfig).Write`: marshal `{DeviceID, Password}`; if the
handle holds the exclusive lock, write the file (mode 0600) and return the
write's error, else fail with the "file is not locked" error. Result is the
filesystem after the call and the Go `error`. -/
def LockSafeConfig.Write (h : LockSafeConfig) (deviceID : Int) (password : String)
    (fs : FS) : FS × Option String :=
  let conf : PrivateConfig := { DeviceID := deviceID, Password := password }
  let buf := yamlMarshalPriv conf
  if h.fileLock.Locked then
    (fsWrite fs h.filename buf, none)
  else
    (fs, some ("file is not locked " ++ h.filename))

/-! ### File download and schedule (client file) -/

/-- Go `FileDetails`. -/
structure FileDetails where
  Name : String
  OriginalName : String
deriving DecidableEq, Repr

/-- Go `FileInfo` (the Go field `Type` is a Lean keyword, hence `type`). -/
structure FileInfo where
  Details : FileDetails
  type : String
deriving DecidableEq, Repr

/-- Go `FileResponse`: file metadata plus the short-lived JWT naming the
content. -/
structure FileResponse where
  File : FileInfo
  Jwt : String
deriving DecidableEq, Repr

/-- The outcome of a plain `GET`: transport error, or a response. -/
inductive GetResult where
  | netErr (e : String)
  | ok (resp : HTTPResponse)

/-- Go `(*CacophonyAPI).getFileFromJWT`: `os.Create(path)` (truncating or
creating the destination), `GET {server}/api/v1/signedUrl?jwt=...`, check
the response, and copy the body into the file. -/
def getFileFromJWT (api : CacophonyAPI) (jwt path : String) (fs : FS)
    (get : String → GetResult) : FS × Option GoError :=
  let fs1 := fsWrite fs path (.bytes "")
  match get (api.serverURL ++ basePath ++ "/signedUrl?jwt=" ++ jwt) with
  | .netErr e => (fs1, some (.str e))
  | .ok resp =>
    match handleHTTPResponse resp with
    | some e => (fs1, some (.api e))
    | none => (fsWrite fs1 path (.bytes resp.body), none)

/-- Whether `os.Stat(path)` returns a nil error, i.e. the path exists. -/
def statErrIsNil : ReadResult → Bool
  | .content _ => true
  | _ => false

/-- Go `(*CacophonyAPI).DownloadFile`: when `os.Stat(filePath)` succeeds
(the destination exists) the code executes `return err` with that nil error;
otherwise it downloads via `getFileFromJWT`. -/
def DownloadFile (api : CacophonyAPI) (fileResponse : FileResponse)
    (filePath : String) (fs : FS) (get : String → GetResult) : FS × Option GoError :=
  if statErrIsNil (fs filePath) then
    (fs, none)
  else
    getFileFromJWT api fileResponse.Jwt filePath fs get

/-- An HTTP request as `GetSchedule` builds it: method, URL, and the value
set under the `Authorization` header. -/
structure Request where
  method : String
  url : String
  authorization : String
deriving DecidableEq, Repr

/-- The request Go `(*CacophonyAPI).GetSchedule` issues:
`GET api.serverURL + basePath + "schedules"` with the session token under
`Authorization` (note: the code concatenates without a slash). -/
def GetScheduleRequest (api : CacophonyAPI) : Request :=
  { method := "GET"
    url := api.serverURL ++ basePath ++ "schedules"
    authorization := api.Client.token }

/-- Go `(*CacophonyAPI).GetSchedule`: issue the request and return the body
bytes (no status check is performed on this path). -/
def GetSchedule (api : CacophonyAPI) (net : Request → GetResult) :
    String × Option String :=
  match net (GetScheduleRequest api) with
  | .netErr e => ("", some e)
  | .ok resp => (resp.body, none)

/-! ### Concrete fixtures used by witnesses -/

/-- A network on which every POST fails at the transport level. -/
def netDown : String → PostResult := fun _ => .netErr "connection refused"

/-- An empty filesystem. -/
def fsEmpty : FS := fun _ => .absent

/-- A filesystem holding corrupt bytes at the credential path. -/
def fsCorrupt : FS :=
  fun p => if p = RegisteredConfigPath then .content (.bytes "corrupt") else .absent

/-- A filesystem on which the download destination `/dest` already exists. -/
def fsDest : FS := fun p => if p = "/dest" then .content (.bytes "old") else .absent

/-- A concrete authenticated API handle. -/
def apiFix : CacophonyAPI :=
  { Client := { group := "g", name := "dev", password := "pw"
                token := "tok", justRegistered := false }
    serverURL := "http://server"
    regURL := "http://server/api/v1/devices"
    authURL := "http://server/authenticate_device" }

/-- Concrete file metadata. -/
def frFix : FileResponse :=
  { File := { Details := { Name := "n", OriginalName := "o" }, type := "t" }
    Jwt := "JWT0" }

/-- A GET oracle that always answers 200 with body "newdata". -/
def getFix : String → GetResult :=
  fun _ => .ok { statusCode := 200, body := "newdata", readErr := none }

/-! ### Theorems -/

/-- Claim C4: `LockSafeConfig.Write` on a handle that does not hold the
exclusive lock returns the locking error, and the filesystem — in
particular the credential file — is unchanged by the failed call, for every
payload. -/
theorem write_unlocked_fails_unchanged (h : LockSafeConfig) (deviceID : Int)
    (password : String) (fs : FS) (hl : h.fileLock.locked = false) :
    (h.Write deviceID password fs).2 = some ("file is not locked " ++ h.filename) ∧
    (h.Write deviceID password fs).1 = fs := by
  simp [LockSafeConfig.Write, Flock.Locked, hl]

/-- Witness for C4 at a concrete fresh handle and payload. -/
theorem write_unlocked_fails_unchanged_witness :
    ((NewLockSafeConfig RegisteredConfigPath).Write 42 "abc" fsEmpty).2
      = some ("file is not locked " ++ RegisteredConfigPath) ∧
    ((NewLockSafeConfig RegisteredConfigPath).Write 42 "abc" fsEmpty).1 = fsEmpty :=
  write_unlocked_fails_unchanged (NewLockSafeConfig RegisteredConfigPath) 42 "abc" fsEmpty rfl

/-- Claim C5: `LockSafeConfig.Read` on a non-existent credential file
returns `(nil, nil)` (the "absent" result, not an error), and on an
existing file whose contents do not deserialize it returns a decode
error. -/
theorem read_absent_nil_corrupt_error (h : LockSafeConfig) (fs fs2 : FS) (s : String)
    (habs : fs h.filename = .absent)
    (hcor : fs2 h.filename = .content (.bytes s)) :
    h.Read (true, none) fs = (none, none) ∧
    h.Read (true, none) fs2 = (none, some "yaml: cannot unmarshal into PrivateConfig") := by
  unfold LockSafeConfig.Read
  cases hl : h.fileLock.Locked <;>
    simp [hl, habs, hcor, yamlUnmarshalPriv]

/-- Witness for C5 at a concrete handle and filesystems. -/
theorem read_absent_nil_corrupt_error_witness :
    (NewLockSafeConfig RegisteredConfigPath).Read (true, none) fsEmpty = (none, none) ∧
    (NewLockSafeConfig RegisteredConfigPath).Read (true, none) fsCorrupt
      = (none, some "yaml: cannot unmarshal into PrivateConfig") :=
  read_absent_nil_corrupt_error (NewLockSafeConfig RegisteredConfigPath)
    fsEmpty fsCorrupt "corrupt" rfl (by simp [fsCorrupt, NewLockSafeConfig])

/-- Claim C6: a successful `Write` under the exclusive lock followed, on a
fresh handle for the same file (no lock held, shared lock acquired), by
`Read` yields exactly the credential written. -/
theorem write_read_roundtrip (deviceID : Int) (password : String)
    (h : LockSafeConfig) (fs : FS) (hl : h.fileLock.locked = true) :
    (h.Write deviceID password fs).2 = none ∧
    (NewLockSafeConfig h.filename).Read (true, none) (h.Write deviceID password fs).1
      = (some { DeviceID := deviceID, Password := password }, none) := by
  simp [LockSafeConfig.Write, Flock.Locked, hl, LockSafeConfig.Read,
        NewLockSafeConfig, fsWrite, yamlMarshalPriv, yamlUnmarshalPriv]

/-- Witness for C6: deviceID 42, password "abc", with the exclusive lock
obtained through `GetExLock`. -/
theorem write_read_roundtrip_witness :
    ((((NewLockSafeConfig RegisteredConfigPath).GetExLock (true, none)).1.Write
        42 "abc" fsEmpty).2 = none) ∧
    (NewLockSafeConfig
        (((NewLockSafeConfig RegisteredConfigPath).GetExLock (true, none)).1.filename)).Read
        (true, none)
        ((((NewLockSafeConfig RegisteredConfigPath).GetExLock (true, none)).1.Write
            42 "abc" fsEmpty).1)
      = (some { DeviceID := 42, Password := "abc" }, none) :=
  write_read_roundtrip 42 "abc"
    (((NewLockSafeConfig RegisteredConfigPath).GetExLock (true, none)).1) fsEmpty rfl

/-- Claim C10: when the handle holds no lock and the shared-lock attempt
times out without error, `Read` returns `(nil, nil)` — the same result it
returns for a missing credential file, so the two situations are
indistinguishable to the caller. -/
theorem read_timeout_matches_absent (h h2 : LockSafeConfig) (fs fs2 : FS)
    (hl : h.fileLock.locked = false) (habs : fs2 h2.filename = .absent) :
    h.Read (false, none) fs = (none, none) ∧
    h2.Read (true, none) fs2 = (none, none) := by
  constructor
  · simp [LockSafeConfig.Read, Flock.Locked, hl]
  · unfold LockSafeConfig.Read
    cases hl2 : h2.fileLock.Locked <;> simp [hl2, habs]

/-- Witness for C10 at concrete handles and filesystems. -/
theorem read_timeout_matches_absent_witness :
    (NewLockSafeConfig RegisteredConfigPath).Read (false, none) fsCorrupt = (none, none) ∧
    (NewLockSafeConfig RegisteredConfigPath).Read (true, none) fsEmpty = (none, none) :=
  read_timeout_matches_absent (NewLockSafeConfig RegisteredConfigPath)
    (NewLockSafeConfig RegisteredConfigPath) fsCorrupt fsEmpty rfl rfl

/-- Claim C7: for every HTTP response with a non-2xx status code (and a
readable body), `handleHTTPResponse` returns an error whose message includes
the response body, classified permanent exactly when the status code lies in
`[400, 500)` and temporary (not permanent) for every other non-2xx code. -/
theorem handleHTTPResponse_body_and_class (resp : HTTPResponse)
    (hfail : ¬(200 ≤ resp.statusCode ∧ resp.statusCode < 300))
    (hread : resp.readErr = none) :
    ∃ e, handleHTTPResponse resp = some e ∧
      (∃ pre, e.message = pre ++ resp.body) ∧
      (e.permanent = true ↔ 400 ≤ resp.statusCode ∧ resp.statusCode < 500) := by
  have hs : isHTTPSuccess resp.statusCode = false := by
    simp only [isHTTPSuccess, Bool.and_eq_false_imp, decide_eq_true_eq, decide_eq_false_iff_not]
    omega
  refine ⟨{ message := "HTTP request failed (" ++ toString resp.statusCode ++ "): " ++ resp.body
            permanent := isHTTPClientError resp.statusCode }, ?_, ?_, ?_⟩
  · simp [handleHTTPResponse, hs, hread]
  · exact ⟨"HTTP request failed (" ++ toString resp.statusCode ++ "): ", rfl⟩
  · simp [isHTTPClientError]

/-- Witness for C7 at status 503 (a non-4xx failure, hence temporary). -/
theorem handleHTTPResponse_body_and_class_witness :
    ∃ e, handleHTTPResponse { statusCode := 503, body := "server busy", readErr := none }
        = some e ∧
      (∃ pre, e.message = pre ++ "server busy") ∧
      (e.permanent = true ↔ 400 ≤ 503 ∧ 503 < 500) :=
  handleHTTPResponse_body_and_class
    { statusCode := 503, body := "server busy", readErr := none } (by decide) rfl

/-- Claim C8: on a 2xx response whose decoded body has `Success = false`,
`authenticate` and `register` fail with the first server message (or
"unknown" when the list is empty), and the failure does not depend on which
2xx status code arrived (the HTTP classification is never consulted). -/
theorem app_failure_message (client : CacophonyClient)
    (authURL regURL genPassword : String) (resp : HTTPResponse) (r : tokenResponse)
    (hpw : client.password ≠ "") (h2xx : isHTTPSuccess resp.statusCode = true)
    (hs : r.Success = false) :
    (authenticate client authURL (fun _ => .ok resp (.ok r))).1
      = some (.str ("failed getting new token: " ++ r.message)) ∧
    (∀ client2 : CacophonyClient, client2.password = "" →
      (register client2 regURL genPassword (fun _ => .ok resp (.ok r))).1
        = some (.str ("registration failed: " ++ r.message))) ∧
    (r.Messages = [] → r.message = "unknown") ∧
    (∀ m ms, r.Messages = m :: ms → r.message = m) ∧
    (∀ resp2 : HTTPResponse, isHTTPSuccess resp2.statusCode = true →
      (authenticate client authURL (fun _ => .ok resp2 (.ok r))).1
        = (authenticate client authURL (fun _ => .ok resp (.ok r))).1) := by
  have hh : handleHTTPResponse resp = none := by simp [handleHTTPResponse, h2xx]
  refine ⟨?_, ?_, ?_, ?_, ?_⟩
  · simp [authenticate, hpw, hh, hs]
  · intro client2 hp2
    simp [register, hp2, hh, hs]
  · intro hm
    simp [tokenResponse.message, hm]
  · intro m ms hm
    simp [tokenResponse.message, hm]
  · intro resp2 h2xx2
    have hh2 : handleHTTPResponse resp2 = none := by simp [handleHTTPResponse, h2xx2]
    simp [authenticate, hpw, hh, hh2, hs]

/-- Witness for C8: status 200 and 201, body decoded with
`Success = false` and message list `["devicename in use"]`. -/
theorem app_failure_message_witness :
    (authenticate { group := "g", name := "dev", password := "pw"
                    token := "", justRegistered := false }
        "http://server/authenticate_device"
        (fun _ => .ok { statusCode := 200, body := "b", readErr := none }
          (.ok { Success := false, Messages := ["devicename in use"], Token := "" }))).1
      = some (.str ("failed getting new token: "
          ++ ({ Success := false, Messages := ["devicename in use"], Token := "" }
              : tokenResponse).message)) ∧
    (∀ client2 : CacophonyClient, client2.password = "" →
      (register client2 "http://server/api/v1/devices" "genpw"
          (fun _ => .ok { statusCode := 200, body := "b", readErr := none }
            (.ok { Success := false, Messages := ["devicename in use"], Token := "" }))).1
        = some (.str ("registration failed: "
            ++ ({ Success := false, Messages := ["devicename in use"], Token := "" }
                : tokenResponse).message))) ∧
    (({ Success := false, Messages := ["devicename in use"], Token := "" }
        : tokenResponse).Messages = [] →
      ({ Success := false, Messages := ["devicename in use"], Token := "" }
        : tokenResponse).message = "unknown") ∧
    (∀ m ms, ({ Success := false, Messages := ["devicename in use"], Token := "" }
        : tokenResponse).Messages = m :: ms →
      ({ Success := false, Messages := ["devicename in use"], Token := "" }
        : tokenResponse).message = m) ∧
    (∀ resp2 : HTTPResponse, isHTTPSuccess resp2.statusCode = true →
      (authenticate { group := "g", name := "dev", password := "pw"
                      token := "", justRegistered := false }
          "http://server/authenticate_device"
          (fun _ => .ok resp2
            (.ok { Success := false, Messages := ["devicename in use"], Token := "" }))).1
        = (authenticate { group := "g", name := "dev", password := "pw"
                          token := "", justRegistered := false }
            "http://server/authenticate_device"
            (fun _ => .ok { statusCode := 200, body := "b", readErr := none }
              (.ok { Success := false, Messages := ["devicename in use"], Token := "" }))).1) :=
  app_failure_message
    { group := "g", name := "dev", password := "pw", token := "", justRegistered := false }
    "http://server/authenticate_device" "http://server/api/v1/devices" "genpw"
    { statusCode := 200, body := "b", readErr := none }
    { Success := false, Messages := ["devicename in use"], Token := "" }
    (by decide) rfl rfl

/-- Helper: when the session has no password, `register` performs exactly
one POST, to the registration URL, whatever the network does. -/
theorem register_calls_eq (client : CacophonyClient) (regURL genPassword : String)
    (net : String → PostResult) (hp : client.password = "") :
    (register client regURL genPassword net).2.2 = [regURL] := by
  unfold register
  rw [if_neg (by simp [hp])]
  cases hNet : net regURL with
  | netErr e => simp
  | ok resp decoded =>
    cases hh : handleHTTPResponse resp with
    | some e => simp [hh]
    | none =>
      cases decoded with
      | error e => simp [hh]
      | ok r => cases hS : r.Success <;> simp [hh, hS]

/-- Helper: when the session has a password, `authenticate` performs exactly
one POST, to the authentication URL, whatever the network does. -/
theorem authenticate_calls_eq (client : CacophonyClient) (authURL : String)
    (net : String → PostResult) (hp : client.password ≠ "") :
    (authenticate client authURL net).2.2 = [authURL] := by
  unfold authenticate
  rw [if_neg hp]
  cases hNet : net authURL with
  | netErr e => simp
  | ok resp decoded =>
    cases hh : handleHTTPResponse resp with
    | some e => simp [hh]
    | none =>
      cases decoded with
      | error e => simp [hh]
      | ok r => cases hS : r.Success <;> simp [hh, hS]

/-- Helper: `authenticate` never changes the session's password or its
`justRegistered` flag, whatever the network does. -/
theorem authenticate_preserves (client : CacophonyClient) (authURL : String)
    (net : String → PostResult) :
    (authenticate client authURL net).2.1.password = client.password ∧
    (authenticate client authURL net).2.1.justRegistered = client.justRegistered := by
  unfold authenticate
  by_cases hp : client.password = ""
  · rw [if_pos hp]
    exact ⟨rfl, rfl⟩
  · rw [if_neg hp]
    cases hNet : net authURL with
    | netErr e => simp
    | ok resp decoded =>
      cases hh : handleHTTPResponse resp with
      | some e => simp [hh]
      | none =>
        cases decoded with
        | error e => simp [hh]
        | ok r => cases hS : r.Success <;> simp [hh, hS]

/-- Claim C2: `NewAPI` with an empty device name fails immediately with no
HTTP call performed; otherwise an empty password runs exactly the
registration POST and a non-empty password runs exactly the authentication
POST — in every case the call list has at most one element, never both
endpoints. -/
theorem newAPI_path_selection (serverURL group deviceName password genPassword : String)
    (net : String → PostResult) :
    (deviceName = "" →
      NewAPI serverURL group deviceName password genPassword net
        = (.error (.str "no device name"), none, [])) ∧
    (deviceName ≠ "" → password = "" →
      (NewAPI serverURL group deviceName password genPassword net).2.2
        = [serverURL ++ basePath ++ "/devices"]) ∧
    (deviceName ≠ "" → password ≠ "" →
      (NewAPI serverURL group deviceName password genPassword net).2.2
        = [serverURL ++ "/authenticate_device"]) := by
  refine ⟨?_, ?_, ?_⟩
  · intro hname
    simp [NewAPI, hname]
  · intro hname hpw
    have hcalls := register_calls_eq
      { group := group, name := deviceName, password := password
        token := "", justRegistered := false }
      (serverURL ++ basePath ++ "/devices") genPassword net hpw
    unfold NewAPI
    rw [if_neg hname, if_pos hpw]
    rcases hR : register
        { group := group, name := deviceName, password := password
          token := "", justRegistered := false }
        (serverURL ++ basePath ++ "/devices") genPassword net with ⟨err, st, calls⟩
    rw [hR] at hcalls
    cases err <;> simpa using hcalls
  · intro hname hpw
    have hcalls := authenticate_calls_eq
      { group := group, name := deviceName, password := password
        token := "", justRegistered := false }
      (serverURL ++ "/authenticate_device") net hpw
    unfold NewAPI
    rw [if_neg hname, if_neg hpw]
    rcases hA : authenticate
        { group := group, name := deviceName, password := password
          token := "", justRegistered := false }
        (serverURL ++ "/authenticate_device") net with ⟨err, st, calls⟩
    rw [hA] at hcalls
    cases err <;> simpa using hcalls

/-- Witness for C2: the three cases at concrete inputs over a concrete
network. -/
theorem newAPI_path_selection_witness :
    (NewAPI "http://s" "grp" "" "pw" "gen" netDown
      = (.error (.str "no device name"), none, [])) ∧
    ((NewAPI "http://s" "grp" "dev" "" "gen" netDown).2.2
      = ["http://s" ++ basePath ++ "/devices"]) ∧
    ((NewAPI "http://s" "grp" "dev" "pw" "gen" netDown).2.2
      = ["http://s" ++ "/authenticate_device"]) :=
  ⟨(newAPI_path_selection "http://s" "grp" "" "pw" "gen" netDown).1 rfl,
   (newAPI_path_selection "http://s" "grp" "dev" "" "gen" netDown).2.1
     (by decide) rfl,
   (newAPI_path_selection "http://s" "grp" "dev" "pw" "gen" netDown).2.2
     (by decide) (by decide)⟩

/-- Claim C3: for a non-empty device name and a non-empty password, `NewAPI`
takes the authentication path and never generates a password: the session
state after the call — success or failure — keeps exactly the input
password and `justRegistered = false`, and the whole result is independent
of the would-be generated password. -/
theorem newAPI_auth_preserves_password
    (serverURL group deviceName password genPassword gen2 : String)
    (net : String → PostResult) (hname : deviceName ≠ "") (hpw : password ≠ "") :
    (∃ st, (NewAPI serverURL group deviceName password genPassword net).2.1 = some st ∧
      st.password = password ∧ st.justRegistered = false) ∧
    NewAPI serverURL group deviceName password genPassword net
      = NewAPI serverURL group deviceName password gen2 net := by
  constructor
  · have hpres := authenticate_preserves
      { group := group, name := deviceName, password := password
        token := "", justRegistered := false }
      (serverURL ++ "/authenticate_device") net
    unfold NewAPI
    rw [if_neg hname, if_neg hpw]
    rcases hA : authenticate
        { group := group, name := deviceName, password := password
          token := "", justRegistered := false }
        (serverURL ++ "/authenticate_device") net with ⟨err, st, calls⟩
    rw [hA] at hpres
    refine ⟨st, ?_, by simpa using hpres.1, by simpa using hpres.2⟩
    cases err <;> rfl
  · unfold NewAPI
    rw [if_neg hname, if_neg hpw, if_neg hname, if_neg hpw]

/-- Witness for C3 at concrete inputs, with two distinct would-be generated
passwords. -/
theorem newAPI_auth_preserves_password_witness :
    ((∃ st, (NewAPI "http://s" "grp" "dev" "pw" "gen1" netDown).2.1 = some st ∧
      st.password = "pw" ∧ st.justRegistered = false)) ∧
    NewAPI "http://s" "grp" "dev" "pw" "gen1" netDown
      = NewAPI "http://s" "grp" "dev" "pw" "gen2" netDown :=
  newAPI_auth_preserves_password "http://s" "grp" "dev" "pw" "gen1" "gen2" netDown
    (by decide) (by decide)

/-- Claim C1 (code bug): when the destination path already exists,
`DownloadFile` executes `return err` with the nil error from `os.Stat`, so
it returns no error (the claim and spec say it must fail) while indeed not
overwriting the file; when the destination does not exist, it streams the
fetched body to that path. Evaluated at concrete inputs covering both
branches. -/
theorem downloadFile_existing_silent :
    (DownloadFile apiFix frFix "/dest" fsDest getFix).2 = none ∧
    (DownloadFile apiFix frFix "/dest" fsDest getFix).1 "/dest"
      = .content (.bytes "old") ∧
    (DownloadFile apiFix frFix "/newfile" fsDest getFix).2 = none ∧
    (DownloadFile apiFix frFix "/newfile" fsDest getFix).1 "/newfile"
      = .content (.bytes "newdata") := by
  refine ⟨rfl, ?_, rfl, ?_⟩ <;> decide

/-- Claim C9 (code bug): `GetSchedule` builds its URL as
`serverURL + basePath + "schedules"` with no separating slash, so the
request goes to `/api/v1schedules`, not the `/api/v1/schedules` endpoint
the claim (and the server API listing) states; the `Authorization` header
does carry the session token. -/
theorem getSchedule_url_missing_slash :
    (GetScheduleRequest apiFix).url = "http://server/api/v1schedules" ∧
    (GetScheduleRequest apiFix).url ≠ apiFix.serverURL ++ basePath ++ "/schedules" ∧
    (GetScheduleRequest apiFix).authorization = apiFix.Client.token := by
  refine ⟨rfl, ?_, rfl⟩
  decide

end GoAPI
